import Mathlib

/-!
Shallow embedding of the session-lifecycle supervisor of `src/inconnu.js`
(FREE-MINI-BASE repository), together with proofs about the claims of the
natural-language specification.

Modelling conventions:
* JS `Map` objects keyed by sanitized tenant numbers are association lists
  `List (String × α)`; `Map`s used only for membership (`activeSockets`)
  are key lists `List String`.
* The per-tenant connection lock `global["connecting_" + n]` is the list of
  tenants whose flag is currently `true`.
* MongoDB (credential blobs keyed by tenant, plus the roster of known
  numbers) and the local `session/session_<n>` cache directory are part of
  the explicit state.
* Time is a `Nat` millisecond clock passed explicitly (`Date.now()`).
* Fallible external calls are driven by explicit boolean oracles
  (`socketThrows`, `closeThrows`).
-/

namespace Inconnu

/-- `number.replace(/[^0-9]/g, '')` — strip every non-digit character
(src/inconnu.js line 82 and the analogous occurrences). -/
def sanitizeNumber (s : String) : String :=
  ⟨s.data.filter Char.isDigit⟩

/-- Association-list lookup, the embedding of `Map.get` (first entry wins;
keys are kept unique by `aset`/`adel`). -/
def alookup {α : Type} (m : List (String × α)) (k : String) : Option α :=
  (m.find? (fun q => q.1 == k)).map (fun q => q.2)

/-- `Map.set`: replace any existing entry for `k` by `(k, v)`. -/
def aset {α : Type} (m : List (String × α)) (k : String) (v : α) : List (String × α) :=
  (k, v) :: m.filter (fun q => q.1 != k)

/-- `Map.delete`: drop the entry for `k`. -/
def adel {α : Type} (m : List (String × α)) (k : String) : List (String × α) :=
  m.filter (fun q => q.1 != k)

/-- Key-set removal on a plain key list (`Map.delete` on a map used as a set). -/
def kdel (l : List String) (k : String) : List String :=
  l.filter (fun x => x != k)

/-- Key-set insertion keeping keys unique (`Map.set` on a map used as a set). -/
def kins (l : List String) (k : String) : List String :=
  k :: kdel l k

/-- The process-wide mutable state of src/inconnu.js that the claims are
about: the two registry maps (lines 58-59), the per-tenant connection lock
flags (line 297), the MongoDB credential blobs and number roster, and the
local session-directory cache.  Credential blobs are opaque: modelled as
`Nat` payloads. -/
structure ServerState where
  activeSockets : List String
  socketCreationTime : List (String × Nat)
  connLock : List String
  mongoSessions : List (String × Nat)
  mongoNumbers : List String
  localCache : List (String × Nat)
deriving DecidableEq, Repr

/-- Result shape of `getConnectionStatus` (src/inconnu.js lines 86-96).
`connectionTime` keeps the raw timestamp instead of the locale string. -/
structure ConnStatus where
  isConnected : Bool
  connectionTime : Option Nat
  uptime : Nat
deriving DecidableEq, Repr

/-- `getConnectionStatus(number)` (src/inconnu.js lines 86-96).  The JS
conditional `connectionTime ? _ : null` tests truthiness, so a stored
timestamp `0` also yields `null`/`0`; `Math.floor((Date.now() - t)/1000)`
is total Nat subtraction and division here. -/
def getConnectionStatus (st : ServerState) (now : Nat) (number : String) : ConnStatus :=
  let n := sanitizeNumber number
  let ct := alookup st.socketCreationTime n
  { isConnected := st.activeSockets.contains n
    connectionTime :=
      match ct with
      | some t => if t = 0 then none else some t
      | none => none
    uptime :=
      match ct with
      | some t => if t = 0 then 0 else (now - t) / 1000
      | none => 0 }

/-- `isNumberAlreadyConnected` (src/inconnu.js lines 81-84). -/
def isNumberAlreadyConnected (st : ServerState) (number : String) : Bool :=
  st.activeSockets.contains (sanitizeNumber number)

/-- The two registry maps are always written and erased together in the
source (lines 206-207, 232-233, 350-351, 785-786, 1007-1009); this is the
resulting synchronisation invariant. -/
def registryInSync (st : ServerState) : Bool :=
  st.activeSockets.all (fun k => (alookup st.socketCreationTime k).isSome) &&
  st.socketCreationTime.all (fun q => st.activeSockets.contains q.1)

/-- Does `sub` occur as a contiguous segment of `l`?  (`String.includes`.) -/
def containsSeg (sub : List Char) : List Char → Bool
  | [] => sub.isEmpty
  | c :: rest => sub.isPrefixOf (c :: rest) || containsSeg sub rest

/-- `errorMessage?.includes(sub)` on an optional string. -/
def msgContains (m : Option String) (sub : String) : Bool :=
  match m with
  | some s => containsSeg sub.data s.data
  | none => false

/-- The `lastDisconnect` data a `connection.update` close event carries
(src/inconnu.js lines 194-196). -/
structure CloseEvent where
  statusCode : Option Nat
  errorMessage : Option String
deriving DecidableEq, Repr

/-- What one run of the `connection === 'close'` branch of the
`setupAutoRestart` handler does (src/inconnu.js lines 194-257):
which maps/stores it erases, whether it detaches the socket listeners,
whether it schedules a reconnect (and with which backoff), and the value of
the handler-local `restartAttempts` afterwards. -/
structure CloseEffects where
  removeActive : Bool
  deleteSession : Bool
  removeNumber : Bool
  detachListeners : Bool
  scheduleReconnectMs : Option Nat
  attemptsAfter : Nat
  logMaxReached : Bool
deriving DecidableEq, Repr

/-- `maxRestartAttempts` (src/inconnu.js line 187). -/
def maxRestartAttempts : Nat := 3

/-- Reconnect backoff, `await delay(10000)` (src/inconnu.js line 239). -/
def reconnectBackoffMs : Nat := 10000

/-- The close branch of the `setupAutoRestart` handler (src/inconnu.js
lines 194-257), as a function of the handler-local `restartAttempts`
counter and the close event.  Branch order as in the source: the 401 /
"401"-in-message manual-unlink test first (line 201), then the
408 / "QR refs attempts ended" expected-closure test (lines 217-218), then
the bounded retry (line 226), else the max-attempts log. -/
def handleClose (restartAttempts : Nat) (ev : CloseEvent) : CloseEffects :=
  if ev.statusCode == some 401 || msgContains ev.errorMessage "401" then
    { removeActive := true, deleteSession := true, removeNumber := true,
      detachListeners := true, scheduleReconnectMs := none,
      attemptsAfter := restartAttempts, logMaxReached := false }
  else if ev.statusCode == some 408 || msgContains ev.errorMessage "QR refs attempts ended" then
    { removeActive := false, deleteSession := false, removeNumber := false,
      detachListeners := false, scheduleReconnectMs := none,
      attemptsAfter := restartAttempts, logMaxReached := false }
  else if restartAttempts < maxRestartAttempts then
    { removeActive := true, deleteSession := false, removeNumber := false,
      detachListeners := true, scheduleReconnectMs := some reconnectBackoffMs,
      attemptsAfter := restartAttempts + 1, logMaxReached := false }
  else
    { removeActive := false, deleteSession := false, removeNumber := false,
      detachListeners := false, scheduleReconnectMs := none,
      attemptsAfter := restartAttempts, logMaxReached := true }

/-- Apply the state-erasing part of a close handling to the server state
(the `activeSockets.delete` / `socketCreationTime.delete` /
`deleteSessionFromMongoDB` / `removeNumberFromMongoDB` calls of
src/inconnu.js lines 206-209 and 232-233). -/
def applyCloseEffects (st : ServerState) (number : String) (eff : CloseEffects) : ServerState :=
  let n := sanitizeNumber number
  let st1 :=
    if eff.removeActive then
      { st with activeSockets := kdel st.activeSockets n,
                socketCreationTime := adel st.socketCreationTime n }
    else st
  let st2 :=
    if eff.deleteSession then
      { st1 with mongoSessions := adel st1.mongoSessions n }
    else st1
  if eff.removeNumber then
    { st2 with mongoNumbers := kdel st2.mongoNumbers n }
  else st2

/-- The responses a `connect` invocation can hand to its result sink
(`res.json` payloads of src/inconnu.js lines 285-290, 300-303, 391-395,
400-403, 408-411, 702-705). -/
inductive SinkMsg
  | alreadyConnected
  | connectionInProgress
  | newPairingCode
  | pairingFailed
  | reconnecting
  | internalError
deriving DecidableEq, Repr

/-- `setTimeout(..., 3000)` around the pairing-code request
(src/inconnu.js line 406). -/
def pairingTimeoutMs : Nat := 3000

/-- `await delay(1500)` before `requestPairingCode` (src/inconnu.js line 387). -/
def pairingInnerDelayMs : Nat := 1500

/-- Everything one `inconnuboyPair` invocation produces: the post-state,
the response written synchronously to the sink (if any), the absolute time
at which the deferred pairing-code response is scheduled to be delivered
(if any), the `usePairingCode` option the protocol client was instantiated
with (`none` when no client was created), whether the invocation acquired
the connection lock, how many times its `finally` block executed
`global[connectionLockKey] = false`, and whether it registered the session
in the registry maps. -/
structure PairResult where
  state : ServerState
  immediateResponse : Option SinkMsg
  scheduledPairingAt : Option Nat
  usePairingCode : Option Bool
  lockAcquired : Bool
  lockReleases : Nat
  registered : Bool
deriving DecidableEq, Repr

/-- `inconnuboyPair(number, res)` (src/inconnu.js lines 272-713), with the
result sink present and `headersSent` false throughout (a fresh HTTP
request or a mock sink), and a single throw oracle `socketThrows` placed at
the `makeWASocket` call (line 330) — any exception inside the `try` lands
in the same `catch`/`finally` (lines 699-712).

Control flow traced from the source:
1. already-connected check (line 280) — returns before `connectionLockKey`
   is assigned (line 296), so the `finally` guard `if (connectionLockKey)`
   is false and the lock is untouched;
2. lock-contention check (line 297) — `connectionLockKey` is already
   assigned, so the `finally` still executes
   `global[connectionLockKey] = false`, clearing a lock this invocation
   never acquired;
3. lock acquisition (line 307), MongoDB blob lookup (line 310), local
   cache cleanup or restore (lines 312-325);
4. client instantiation with `usePairingCode: !existingSession`
   (line 336), registration of both registry maps (lines 350-351);
5. deferred pairing-code request after 3000+1500 ms for a new pairing
   (lines 384-406), or an immediate `reconnecting` response for a restore
   (lines 407-412);
6. `finally`: one lock release whenever `connectionLockKey` was assigned
   (lines 707-712). -/
def inconnuboyPair (st : ServerState) (now : Nat) (number : String)
    (socketThrows : Bool) : PairResult :=
  let n := sanitizeNumber number
  if st.activeSockets.contains n then
    { state := st, immediateResponse := some .alreadyConnected,
      scheduledPairingAt := none, usePairingCode := none,
      lockAcquired := false, lockReleases := 0, registered := false }
  else if st.connLock.contains n then
    { state := { st with connLock := kdel st.connLock n },
      immediateResponse := some .connectionInProgress,
      scheduledPairingAt := none, usePairingCode := none,
      lockAcquired := false, lockReleases := 1, registered := false }
  else
    let locked := { st with connLock := kins st.connLock n }
    let existingSession := alookup st.mongoSessions n
    let cached : ServerState :=
      match existingSession with
      | none => { locked with localCache := adel locked.localCache n }
      | some blob => { locked with localCache := aset locked.localCache n blob }
    if socketThrows then
      { state := { cached with connLock := kdel cached.connLock n },
        immediateResponse := some .internalError,
        scheduledPairingAt := none, usePairingCode := none,
        lockAcquired := true, lockReleases := 1, registered := false }
    else
      let reg := { cached with
        socketCreationTime := aset cached.socketCreationTime n now,
        activeSockets := kins cached.activeSockets n }
      let final := { reg with connLock := kdel reg.connLock n }
      match existingSession with
      | none =>
        { state := final, immediateResponse := none,
          scheduledPairingAt := some (now + pairingTimeoutMs + pairingInnerDelayMs),
          usePairingCode := some true,
          lockAcquired := true, lockReleases := 1, registered := true }
      | some _ =>
        { state := final, immediateResponse := some .reconnecting,
          scheduledPairingAt := none, usePairingCode := some false,
          lockAcquired := true, lockReleases := 1, registered := true }

/-- Every retry re-invokes `inconnuboyPair` (src/inconnu.js line 250),
which calls `setupAutoRestart` on the new socket (line 357), whose
handler-local counter starts at `restartAttempts = 0` (line 186).  Given
the counter of the handler that receives a closure, this returns the
counter of the handler that will receive the *next* closure for the same
tenant, or `none` when no reconnect was scheduled. -/
def nextHandlerAttempts (attempts : Nat) (ev : CloseEvent) : Option Nat :=
  match (handleClose attempts ev).scheduleReconnectMs with
  | some _ => some 0
  | none => none

/-- A representative unexpected closure: neither 401/unauthorized nor
408/pairing-expiry. -/
def unexpectedClose : CloseEvent :=
  { statusCode := some 500, errorMessage := some "Connection Failure" }

/-- Counter of the handler that receives the `(k+1)`-th consecutive
unexpected closure for one tenant (`none` once a closure goes unhandled
because no reconnect was scheduled).  The first closure is received by the
socket installed by the original connect, whose counter is 0. -/
def attemptsAtClosure : Nat → Option Nat
  | 0 => some 0
  | k + 1 =>
    match attemptsAtClosure k with
    | some a => nextHandlerAttempts a unexpectedClose
    | none => none

/-- A registered command of `events.commands` (the CommandDescriptor):
`pattern`, optional `alias` list, optional non-command trigger `on`,
optional reaction emoji `react`, and its handler — the handler body is
abstracted to an id (for counting invocations) plus a flag saying whether
it throws synchronously when invoked. -/
structure Command where
  commandId : Nat
  cmdPattern : Option String
  aliasList : Option (List String)
  onEvent : Option String
  reactEmoji : Option String
  handlerThrows : Bool
deriving DecidableEq, Repr

/-- The slice of one inbound non-status message the dispatch code reads
(src/inconnu.js lines 556-576): `body` (text of a conversation /
extendedText message), the sender-is-owner result of line 577, and the
fields `mek.type` / `mek.q` consulted by the passive-trigger loop
(lines 689-691).  `contentType` and `quotedText` are produced by the
message serializer `sms` of `lib/msg` which is not under `src/`; modelled
from the spec: `sms` annotates the event with its content type and quoted
text, the trigger kinds being "on body text / on quoted-text / on image /
on sticker". -/
structure MsgEvent where
  body : String
  contentType : String
  quotedText : Option String
  senderIsOwner : Bool
deriving DecidableEq, Repr

/-- The configuration the dispatch reads: `config.PREFIX` and
`config.WORK_TYPE` (src/config.js lines 20, 26). -/
structure DispatchConfig where
  pfx : String
  workType : String
deriving DecidableEq, Repr

/-- `body.slice(config.PREFIX.length).trim()` — `String.trim` strips
leading and trailing whitespace. -/
def jsTrim (l : List Char) : List Char :=
  ((l.dropWhile Char.isWhitespace).reverse.dropWhile Char.isWhitespace).reverse

/-- `.split(' ')[0]` — everything before the first space. -/
def firstToken (l : List Char) : List Char :=
  l.takeWhile (fun c => c != ' ')

/-- The command name parsed from a message body (src/inconnu.js lines
563-564, 655): `none` when the body does not start with the configured
command marker (`isCmd` false), otherwise
`body.slice(pfx.length).trim().split(' ')[0].toLowerCase()`. -/
def cmdNameOf (pfxStr : String) (body : String) : Option String :=
  if pfxStr.data.isPrefixOf body.data then
    some ⟨(firstToken (jsTrim (body.data.drop pfxStr.data.length))).map Char.toLower⟩
  else none

/-- `events.commands.find(cmd => cmd.pattern === cmdName) ||
events.commands.find(cmd => cmd.alias && cmd.alias.includes(cmdName))`
(src/inconnu.js line 660). -/
def findCommand (cmds : List Command) (name : String) : Option Command :=
  match cmds.find? (fun c => c.cmdPattern == some name) with
  | some c => some c
  | none =>
    cmds.find? (fun c =>
      match c.aliasList with
      | some al => al.contains name
      | none => false)

/-- The command the command-dispatch path of one message event resolves to,
if any (src/inconnu.js lines 655-660): only consulted when `isCmd`. -/
def resolvedCommand (cfg : DispatchConfig) (cmds : List Command) (ev : MsgEvent) :
    Option Command :=
  match cmdNameOf cfg.pfx ev.body with
  | some nm => findCommand cmds nm
  | none => none

/-- The per-command `else if` chain of the passive-trigger loop
(src/inconnu.js lines 688-691): on-body needs a truthy `body`, on-text a
truthy `mek.q`, on-image/on-photo an `imageMessage`, on-sticker a
`stickerMessage`. -/
def passiveTrigger (ev : MsgEvent) (c : Command) : Bool :=
  if ev.body != "" && c.onEvent == some "body" then true
  else if ev.quotedText.isSome && c.onEvent == some "text" then true
  else if (c.onEvent == some "image" || c.onEvent == some "photo")
      && ev.contentType == "imageMessage" then true
  else if c.onEvent == some "sticker" && ev.contentType == "stickerMessage" then true
  else false

/-- What the handler-invoking part of one `messages.upsert` run produces
(src/inconnu.js lines 654-692): the command handler invoked by the
command path (at most one), whether its synchronous throw was caught and
logged by the `try/catch` of lines 665-674 (`PLUGIN ERROR`), whether a
reaction was sent, whether the `config.WORK_TYPE === 'private'` guard of
line 662 returned out of the whole handler, the passive-trigger handlers
invoked by the `events.commands.map` loop, and the passive-handler throws
that escaped: each loop iteration is an `async` callback whose promise is
never awaited, so a throw inside it rejects that promise — the enclosing
`try/catch` of lines 493/694 never observes it and logs nothing for it. -/
structure DispatchResult where
  commandInvoked : Option Nat
  commandLoggedError : Bool
  reactionSent : Bool
  privateModeReturn : Bool
  passiveInvoked : List Nat
  escapedRejections : List Nat
deriving DecidableEq, Repr

/-- The handler-dispatch tail of the `messages.upsert` callback
(src/inconnu.js lines 654-692) for one non-status message. -/
def dispatchMessage (cfg : DispatchConfig) (cmds : List Command) (ev : MsgEvent) :
    DispatchResult :=
  match resolvedCommand cfg cmds ev with
  | some c =>
    if cfg.workType == "private" && !ev.senderIsOwner then
      { commandInvoked := none, commandLoggedError := false, reactionSent := false,
        privateModeReturn := true, passiveInvoked := [], escapedRejections := [] }
    else
      { commandInvoked := some c.commandId
        commandLoggedError := c.handlerThrows
        reactionSent := c.reactEmoji.isSome
        privateModeReturn := false
        passiveInvoked := (cmds.filter (passiveTrigger ev)).map (fun b => b.commandId)
        escapedRejections :=
          ((cmds.filter (passiveTrigger ev)).filter (fun b => b.handlerThrows)).map
            (fun b => b.commandId) }
  | none =>
      { commandInvoked := none, commandLoggedError := false, reactionSent := false,
        privateModeReturn := false
        passiveInvoked := (cmds.filter (passiveTrigger ev)).map (fun b => b.commandId)
        escapedRejections :=
          ((cmds.filter (passiveTrigger ev)).filter (fun b => b.handlerThrows)).map
            (fun b => b.commandId) }

/-- HTTP responses of the `/disconnect` route. -/
inductive HttpResp
  | notFound
  | ok
  | serverError
deriving DecidableEq, Repr

/-- What one `/disconnect` request produces (src/inconnu.js lines
763-803). -/
structure DisconnectResult where
  state : ServerState
  resp : HttpResp
  closedWs : Bool
  detachedListeners : Bool
deriving DecidableEq, Repr

/-- `router.get('/disconnect')` (src/inconnu.js lines 763-803) for a
request that does carry a `number` parameter.  `closeThrows` is the throw
oracle for `socket.ws.close()` (line 781): on a throw the `catch` answers
500 before any listener detach or map/store removal has happened. -/
def disconnectRoute (st : ServerState) (number : String) (closeThrows : Bool) :
    DisconnectResult :=
  let n := sanitizeNumber number
  if !st.activeSockets.contains n then
    { state := st, resp := .notFound, closedWs := false, detachedListeners := false }
  else if closeThrows then
    { state := st, resp := .serverError, closedWs := false, detachedListeners := false }
  else
    { state := { st with
        activeSockets := kdel st.activeSockets n,
        socketCreationTime := adel st.socketCreationTime n,
        mongoNumbers := kdel st.mongoNumbers n,
        mongoSessions := adel st.mongoSessions n },
      resp := .ok, closedWs := true, detachedListeners := true }

/-- A concrete populated state used by the witnesses: tenant `123` is
registered, locked-free, with a stored credential blob and roster entry. -/
def st123 : ServerState :=
  { activeSockets := ["123"], socketCreationTime := [("123", 5)],
    connLock := [], mongoSessions := [("123", 9)], mongoNumbers := ["123"],
    localCache := [] }

/-- A concrete state holding only tenant `999`, used by witnesses querying
an absent tenant. -/
def st999 : ServerState :=
  { activeSockets := ["999"], socketCreationTime := [("999", 7000)],
    connLock := [], mongoSessions := [], mongoNumbers := [], localCache := [] }

/-- The empty server state. -/
def stEmpty : ServerState :=
  { activeSockets := [], socketCreationTime := [], connLock := [],
    mongoSessions := [], mongoNumbers := [], localCache := [] }

/-- A state in which a concurrent `connect("123")` invocation currently
holds the connection lock for tenant `123` and has not yet registered the
socket. -/
def stLocked123 : ServerState :=
  { activeSockets := [], socketCreationTime := [], connLock := ["123"],
    mongoSessions := [], mongoNumbers := [], localCache := [] }

/-- A state in which tenant `123` has a stored credential blob and roster
entry but is not connected and not being connected. -/
def stStored123 : ServerState :=
  { activeSockets := [], socketCreationTime := [], connLock := [],
    mongoSessions := [("123", 9)], mongoNumbers := ["123"], localCache := [] }

/-- A pattern string that survives the source's
`trim().split(' ')[0].toLowerCase()` parsing unchanged: no whitespace, and
already lower-case. -/
def plainToken (p : String) : Bool :=
  p.data.all (fun c => !c.isWhitespace && (c.toLower == c))

/-- A command registered under pattern `ping`, handler id 0. -/
def pingCmd : Command :=
  { commandId := 0, cmdPattern := some "ping", aliasList := none,
    onEvent := none, reactEmoji := none, handlerThrows := false }

/-- A passive command with trigger `on body`, handler id 1. -/
def bodyCmd : Command :=
  { commandId := 1, cmdPattern := none, aliasList := none,
    onEvent := some "body", reactEmoji := none, handlerThrows := false }

/-- A passive `on body` command whose handler throws, id 2. -/
def throwingBodyCmd : Command :=
  { commandId := 2, cmdPattern := none, aliasList := none,
    onEvent := some "body", reactEmoji := none, handlerThrows := true }

/-- The default configuration: `PREFIX` `.` and `WORK_TYPE` `public`
(src/config.js lines 20, 26). -/
def pubCfg : DispatchConfig := { pfx := ".", workType := "public" }

/-- The same configuration with `WORK_TYPE` set to `private`. -/
def privCfg : DispatchConfig := { pfx := ".", workType := "private" }

/-- A plain text message `.ping` from a non-owner sender. -/
def evPing : MsgEvent :=
  { body := ".ping", contentType := "conversation", quotedText := none,
    senderIsOwner := false }

/-- A plain non-command text message from a non-owner sender. -/
def evHello : MsgEvent :=
  { body := "hello", contentType := "conversation", quotedText := none,
    senderIsOwner := false }

/-! ## Helper lemmas about the map/set embeddings -/

@[simp]
theorem contains_kdel (l : List String) (n : String) : (kdel l n).contains n = false := by
  simp [kdel, List.elem_eq_mem, List.mem_filter]

@[simp]
theorem contains_kins (l : List String) (n : String) : (kins l n).contains n = true := by
  simp [kins, List.elem_eq_mem]

@[simp]
theorem alookup_adel {α : Type} (m : List (String × α)) (n : String) :
    alookup (adel m n) n = none := by
  simp [alookup, adel, List.find?_eq_none, List.mem_filter]

@[simp]
theorem alookup_aset {α : Type} (m : List (String × α)) (n : String) (v : α) :
    alookup (aset m n v) n = some v := by
  simp [alookup, aset, List.find?]

@[simp]
theorem not_mem_kdel (l : List String) (n : String) : n ∉ kdel l n := by
  simp [kdel, List.mem_filter]

@[simp]
theorem mem_kins (l : List String) (n : String) : n ∈ kins l n := by
  simp [kins]

theorem dropWhile_eq_self_of (p : Char → Bool) (l : List Char)
    (h : ∀ c ∈ l, p c = false) : l.dropWhile p = l := by
  cases l with
  | nil => rfl
  | cons a t =>
    rw [List.dropWhile_cons_of_neg]
    simp [h a]

theorem takeWhile_eq_self_of (p : Char → Bool) (l : List Char)
    (h : ∀ c ∈ l, p c = true) : l.takeWhile p = l := by
  induction l with
  | nil => rfl
  | cons a t ih =>
    rw [List.takeWhile_cons_of_pos (by simp [h a])]
    rw [ih (fun c hc => h c (List.mem_cons_of_mem a hc))]

theorem map_eq_self_of (f : Char → Char) (l : List Char)
    (h : ∀ c ∈ l, f c = c) : l.map f = l := by
  induction l with
  | nil => rfl
  | cons a t ih =>
    simp only [List.map_cons, h a (List.mem_cons_self a t)]
    rw [ih (fun c hc => h c (List.mem_cons_of_mem a hc))]

theorem isPrefixOf_append_self (l1 l2 : List Char) : l1.isPrefixOf (l1 ++ l2) = true := by
  induction l1 with
  | nil => simp [List.isPrefixOf]
  | cons a t ih => simp [List.isPrefixOf, ih]

theorem jsTrim_eq_self (l : List Char) (h : ∀ c ∈ l, c.isWhitespace = false) :
    jsTrim l = l := by
  unfold jsTrim
  rw [dropWhile_eq_self_of _ _ h]
  rw [dropWhile_eq_self_of _ _ (fun c hc => h c (List.mem_reverse.mp hc))]
  exact List.reverse_reverse l

/-- The body `pfxStr ++ p` of a command message parses back to exactly `p`
when `p` is a plain lower-case token. -/
theorem cmdNameOf_append (pfxStr p : String) (hp : plainToken p = true) :
    cmdNameOf pfxStr (pfxStr ++ p) = some p := by
  have hall := List.all_eq_true.mp hp
  have hws : ∀ c ∈ p.data, c.isWhitespace = false := by
    intro c hc
    have h1 := hall c hc
    rw [Bool.and_eq_true] at h1
    simpa using h1.1
  have hlow : ∀ c ∈ p.data, c.toLower = c := by
    intro c hc
    have h1 := hall c hc
    rw [Bool.and_eq_true] at h1
    simpa using h1.2
  have hsp : ∀ c ∈ p.data, (c != ' ') = true := by
    intro c hc
    have h1 := hws c hc
    by_contra hne
    simp only [bne_eq_false_iff_eq, Bool.not_eq_true] at hne
    rw [hne] at h1
    simp at h1
  have hdata : (pfxStr ++ p).data = pfxStr.data ++ p.data := rfl
  unfold cmdNameOf
  rw [hdata, isPrefixOf_append_self]
  simp only [if_true]
  rw [List.drop_left, jsTrim_eq_self p.data hws]
  unfold firstToken
  rw [takeWhile_eq_self_of _ _ hsp, map_eq_self_of _ _ hlow]

/-- If the two registry maps are in sync and a tenant is absent from
`activeSockets`, it also has no `socketCreationTime` entry. -/
theorem alookup_eq_none_of_sync (st : ServerState) (n : String)
    (hs : registryInSync st = true)
    (h : st.activeSockets.contains n = false) :
    alookup st.socketCreationTime n = none := by
  rw [registryInSync, Bool.and_eq_true] at hs
  have hfind : st.socketCreationTime.find? (fun q => q.1 == n) = none := by
    rw [List.find?_eq_none]
    intro q hq hbeq
    have hq1 : q.1 = n := by simpa using hbeq
    have hall := (List.all_eq_true.mp hs.2) q hq
    rw [hq1, h] at hall
    exact Bool.false_ne_true hall
  simp [alookup, hfind]

/-! ## Claims -/

/-- C10: for every input number string whose sanitized digit form has no
entry in the Registry, `getConnectionStatus` returns exactly
`{isConnected: false, connectionTime: null, uptime: 0}` — a status query
for an unknown or disconnected tenant never fails and always reports zero
uptime and a null connection time.  The `registryInSync` hypothesis
records that the two registry maps of the source are always written and
erased together. -/
theorem c10_status_unknown_tenant (st : ServerState) (now : Nat) (number : String)
    (hs : registryInSync st = true)
    (h : st.activeSockets.contains (sanitizeNumber number) = false) :
    getConnectionStatus st now number =
      { isConnected := false, connectionTime := none, uptime := 0 } := by
  have hl := alookup_eq_none_of_sync st (sanitizeNumber number) hs h
  have h2 : sanitizeNumber number ∉ st.activeSockets := by
    simpa [List.elem_eq_mem] using h
  simp [getConnectionStatus, hl, h2]

/-- Witness for C10 at a concrete state holding a different tenant. -/
theorem c10_status_unknown_tenant_witness :
    getConnectionStatus st999 12000 "+1 (23)" =
      { isConnected := false, connectionTime := none, uptime := 0 } :=
  c10_status_unknown_tenant st999 12000 "+1 (23)" (by decide) (by decide)

/-- C4: on a connection-close event with status code 401 (or an error
message indicating unauthorized, which the source tests as
`errorMessage?.includes('401')`), the supervisor performs a manual unlink:
the tenant is removed from both registry maps, its credential blob is
deleted from the store, the tenant is removed from the known-tenant
roster, all listeners on the session are detached, and no reconnect is
scheduled; the attempt counter is untouched. -/
theorem c4_manual_unlink_on_401 (st : ServerState) (attempts : Nat) (number : String)
    (ev : CloseEvent)
    (h : (ev.statusCode == some 401 || msgContains ev.errorMessage "401") = true) :
    (applyCloseEffects st number (handleClose attempts ev)).activeSockets.contains
        (sanitizeNumber number) = false ∧
    alookup (applyCloseEffects st number (handleClose attempts ev)).socketCreationTime
        (sanitizeNumber number) = none ∧
    alookup (applyCloseEffects st number (handleClose attempts ev)).mongoSessions
        (sanitizeNumber number) = none ∧
    (applyCloseEffects st number (handleClose attempts ev)).mongoNumbers.contains
        (sanitizeNumber number) = false ∧
    (handleClose attempts ev).detachListeners = true ∧
    (handleClose attempts ev).scheduleReconnectMs = none ∧
    (handleClose attempts ev).attemptsAfter = attempts := by
  rw [handleClose]
  simp [h, applyCloseEffects, kdel, List.mem_filter]

/-- Witness for C4: a logged-out close (status 401) for tenant `123`. -/
theorem c4_manual_unlink_on_401_witness :
    (applyCloseEffects st123 "123"
        (handleClose 0 { statusCode := some 401, errorMessage := some "logged out" })).activeSockets.contains "123" = false ∧
    alookup (applyCloseEffects st123 "123"
        (handleClose 0 { statusCode := some 401, errorMessage := some "logged out" })).mongoSessions "123" = none := by
  have h := c4_manual_unlink_on_401 st123 0 "123"
    { statusCode := some 401, errorMessage := some "logged out" } (by decide)
  exact ⟨h.1, h.2.2.1⟩

/-- C5 (failing-input evaluation): four consecutive unexpected closures
(status 500) for one tenant.  Every retry re-invokes `inconnuboyPair`,
which installs a fresh `setupAutoRestart` whose `restartAttempts` starts
again at 0, so the handler that receives the 4th consecutive closure still
has counter 0 — and a counter-0 handler increments to 1 and schedules the
10-second retry.  The per-handler bound (`attempts >= 3` would schedule
nothing) is therefore never reached across the chain, contradicting the
claim that a 4th consecutive closure schedules no retry. -/
theorem c5_fourth_closure_still_retries :
    attemptsAtClosure 3 = some 0 ∧
    (handleClose 0 unexpectedClose).scheduleReconnectMs = some reconnectBackoffMs ∧
    (handleClose 0 unexpectedClose).attemptsAfter = 1 ∧
    (handleClose maxRestartAttempts unexpectedClose).scheduleReconnectMs = none := by
  decide

/-- C9 (counterexample): a close event with status code 408 whose error
message happens to contain `"401"` is classified by the earlier
manual-unlink test (src/inconnu.js line 201) before the 408 test is
reached: the credential blob and the roster entry are deleted — not the
"no action" the claim states for every 408 close. -/
theorem c9_408_with_401_message_unlinks :
    (handleClose 0 { statusCode := some 408, errorMessage := some "error 401" }).deleteSession
      = true ∧
    (handleClose 0 { statusCode := some 408, errorMessage := some "error 401" }).removeNumber
      = true ∧
    (handleClose 0 { statusCode := some 408, errorMessage := some "error 401" }).removeActive
      = true := by
  decide

/-- C9 (amended): on a connection-close event with status code 408 or an
error message indicating pairing-code expiry, *provided the close is not
also classified unauthorized* (status 401 or message containing "401",
which the source tests first), the supervisor takes no action: the
retry-attempt counter is unchanged, no reconnect is scheduled, no
listeners are detached, and the server state — registry, credential
store, roster — is untouched. -/
theorem c9_expected_closure_no_action (st : ServerState) (attempts : Nat) (number : String)
    (ev : CloseEvent)
    (hexp : (ev.statusCode == some 408
        || msgContains ev.errorMessage "QR refs attempts ended") = true)
    (hnot : (ev.statusCode == some 401 || msgContains ev.errorMessage "401") = false) :
    handleClose attempts ev =
      { removeActive := false, deleteSession := false, removeNumber := false,
        detachListeners := false, scheduleReconnectMs := none,
        attemptsAfter := attempts, logMaxReached := false } ∧
    applyCloseEffects st number (handleClose attempts ev) = st := by
  have heff : handleClose attempts ev =
      { removeActive := false, deleteSession := false, removeNumber := false,
        detachListeners := false, scheduleReconnectMs := none,
        attemptsAfter := attempts, logMaxReached := false } := by
    rw [handleClose]
    simp [hnot, hexp]
  exact ⟨heff, by rw [heff]; simp [applyCloseEffects]⟩

/-- Witness for C9 at a pairing-expiry close (status 408) on a populated
state. -/
theorem c9_expected_closure_no_action_witness :
    handleClose 2 { statusCode := some 408, errorMessage := some "QR refs attempts ended" } =
      { removeActive := false, deleteSession := false, removeNumber := false,
        detachListeners := false, scheduleReconnectMs := none,
        attemptsAfter := 2, logMaxReached := false } ∧
    applyCloseEffects st123 "123"
      (handleClose 2 { statusCode := some 408, errorMessage := some "QR refs attempts ended" }) =
      st123 :=
  c9_expected_closure_no_action st123 2 "123" _ (by decide) (by decide)

/-- C1 (counterexample): a `connect("123")` invoked while a concurrent
`connect("123")` holds the connection lock (and has not yet registered the
socket) takes the lock-contention short-circuit — it acquires nothing, yet
its `finally` block still executes `global[connectionLockKey] = false`
(the key was assigned at src/inconnu.js line 296, before the contention
check at line 297), so the concurrent invocation's lock is cleared instead
of left unchanged, refuting the claim's "leaves the lock state held by any
concurrent invocation unchanged". -/
theorem c1_lock_contention_clears_lock :
    (inconnuboyPair stLocked123 0 "123" false).lockAcquired = false ∧
    (inconnuboyPair stLocked123 0 "123" false).lockReleases = 1 ∧
    (inconnuboyPair stLocked123 0 "123" false).state.connLock = [] := by
  decide

/-- C1 (amended): per exit path of a `connect` invocation —
an invocation that acquired the lock (normal completion or thrown
exception) executes exactly one release and leaves the tenant's lock
clear; the already-connected short-circuit returns before the lock key is
assigned, so it performs no release and leaves the whole state unchanged;
but the lock-contention short-circuit, although it never acquired the
lock, also performs one release and thereby clears the lock held by the
concurrent invocation. -/
theorem c1_lock_release_per_exit_path (st : ServerState) (now : Nat) (number : String)
    (socketThrows : Bool) :
    (sanitizeNumber number ∈ st.activeSockets →
      (inconnuboyPair st now number socketThrows).state = st ∧
      (inconnuboyPair st now number socketThrows).lockReleases = 0 ∧
      (inconnuboyPair st now number socketThrows).lockAcquired = false) ∧
    (sanitizeNumber number ∉ st.activeSockets →
      sanitizeNumber number ∈ st.connLock →
      (inconnuboyPair st now number socketThrows).lockAcquired = false ∧
      (inconnuboyPair st now number socketThrows).lockReleases = 1 ∧
      sanitizeNumber number ∉ (inconnuboyPair st now number socketThrows).state.connLock) ∧
    (sanitizeNumber number ∉ st.activeSockets →
      sanitizeNumber number ∉ st.connLock →
      (inconnuboyPair st now number socketThrows).lockAcquired = true ∧
      (inconnuboyPair st now number socketThrows).lockReleases = 1 ∧
      sanitizeNumber number ∉ (inconnuboyPair st now number socketThrows).state.connLock) := by
  refine ⟨?_, ?_, ?_⟩
  · intro hA
    simp [inconnuboyPair, hA]
  · intro hA hL
    simp [inconnuboyPair, hA, hL]
  · intro hA hL
    cases socketThrows <;>
      cases hS : alookup st.mongoSessions (sanitizeNumber number) <;>
        simp [inconnuboyPair, hA, hL, hS]

/-- Witness for C1 (amended), acquiring path at a concrete fresh state. -/
theorem c1_lock_release_per_exit_path_witness :
    (inconnuboyPair stEmpty 0 "456" false).lockAcquired = true ∧
    (inconnuboyPair stEmpty 0 "456" false).lockReleases = 1 ∧
    sanitizeNumber "456" ∉ (inconnuboyPair stEmpty 0 "456" false).state.connLock :=
  (c1_lock_release_per_exit_path stEmpty 0 "456" false).2.2 (by decide) (by decide)

/-- C2 (counterexample): for a new tenant with no stored credential blob,
`connect` registers the SessionHandle in the Registry (`activeSockets`)
immediately, at client-instantiation time (src/inconnu.js lines 350-351) —
with the pairing-code delivery still pending 4500 ms in the future and no
connection event (in particular no `open`) processed yet — refuting the
claim that no SessionHandle is registered for the tenant until `open`
fires. -/
theorem c2_registered_before_open :
    (inconnuboyPair stEmpty 0 "123" false).registered = true ∧
    "123" ∈ (inconnuboyPair stEmpty 0 "123" false).state.activeSockets ∧
    (inconnuboyPair stEmpty 0 "123" false).scheduledPairingAt = some 4500 := by
  decide

/-- C2 (amended): for every tenant with no stored credential blob (and no
connect already active or in progress), `connect` schedules the
pairing-code delivery to the result sink at exactly the fixed delay
(3000 ms `setTimeout` + 1500 ms `delay` = 4500 ms) after the call,
instantiates the client in pairing-code mode, sends no immediate response,
and registers the SessionHandle in the Registry immediately during the
call — before the pairing code is delivered and before any `open` event. -/
theorem c2_pairing_code_within_window (st : ServerState) (now : Nat) (number : String)
    (hA : sanitizeNumber number ∉ st.activeSockets)
    (hL : sanitizeNumber number ∉ st.connLock)
    (hS : alookup st.mongoSessions (sanitizeNumber number) = none) :
    (inconnuboyPair st now number false).scheduledPairingAt
        = some (now + pairingTimeoutMs + pairingInnerDelayMs) ∧
    (inconnuboyPair st now number false).usePairingCode = some true ∧
    (inconnuboyPair st now number false).registered = true ∧
    sanitizeNumber number ∈ (inconnuboyPair st now number false).state.activeSockets ∧
    (inconnuboyPair st now number false).immediateResponse = none := by
  simp [inconnuboyPair, hA, hL, hS]

/-- Witness for C2 (amended) at the empty state. -/
theorem c2_pairing_code_within_window_witness :
    (inconnuboyPair stEmpty 1000 "456" false).scheduledPairingAt
        = some (1000 + pairingTimeoutMs + pairingInnerDelayMs) ∧
    (inconnuboyPair stEmpty 1000 "456" false).usePairingCode = some true ∧
    (inconnuboyPair stEmpty 1000 "456" false).registered = true ∧
    sanitizeNumber "456" ∈ (inconnuboyPair stEmpty 1000 "456" false).state.activeSockets ∧
    (inconnuboyPair stEmpty 1000 "456" false).immediateResponse = none :=
  c2_pairing_code_within_window stEmpty 1000 "456" (by decide) (by decide) (by decide)

/-- C6: for a tenant whose credential blob is present in the store,
`connect` writes the blob into the local session cache, instantiates the
client in resume mode (`usePairingCode` false), skips pairing-code
generation entirely, and immediately reports `reconnecting` to the result
sink; for a tenant whose blob is absent, any stale local cache entry is
discarded and the client is instantiated in pairing-code mode. -/
theorem c6_restore_vs_fresh (st : ServerState) (now : Nat) (number : String) (blob : Nat)
    (hA : sanitizeNumber number ∉ st.activeSockets)
    (hL : sanitizeNumber number ∉ st.connLock) :
    (alookup st.mongoSessions (sanitizeNumber number) = some blob →
      (inconnuboyPair st now number false).usePairingCode = some false ∧
      (inconnuboyPair st now number false).scheduledPairingAt = none ∧
      (inconnuboyPair st now number false).immediateResponse = some SinkMsg.reconnecting ∧
      alookup (inconnuboyPair st now number false).state.localCache (sanitizeNumber number)
        = some blob ∧
      (inconnuboyPair st now number false).registered = true) ∧
    (alookup st.mongoSessions (sanitizeNumber number) = none →
      (inconnuboyPair st now number false).usePairingCode = some true ∧
      alookup (inconnuboyPair st now number false).state.localCache (sanitizeNumber number)
        = none) := by
  constructor <;> intro hS <;> simp [inconnuboyPair, hA, hL, hS]

/-- Witness for C6: the restore branch at a state storing blob `9` for
tenant `123`. -/
theorem c6_restore_vs_fresh_witness :
    (inconnuboyPair stStored123 0 "123" false).usePairingCode = some false ∧
    (inconnuboyPair stStored123 0 "123" false).scheduledPairingAt = none ∧
    (inconnuboyPair stStored123 0 "123" false).immediateResponse = some SinkMsg.reconnecting ∧
    alookup (inconnuboyPair stStored123 0 "123" false).state.localCache
      (sanitizeNumber "123") = some 9 ∧
    (inconnuboyPair stStored123 0 "123" false).registered = true :=
  (c6_restore_vs_fresh stStored123 0 "123" 9 (by decide) (by decide)).1 (by decide)

/-- C7: `disconnect` answers not-found (404) and changes nothing when the
tenant has no active Registry entry; for a registered tenant (and a
transport close that does not throw) it closes the transport, detaches all
listeners, removes the tenant from both registry maps, deletes the
credential blob and the roster entry from the store, and a second
immediate `disconnect` for the same tenant answers not-found. -/
theorem c7_disconnect_behavior (st : ServerState) (number : String) :
    (sanitizeNumber number ∉ st.activeSockets →
      ∀ thr, disconnectRoute st number thr =
        { state := st, resp := .notFound, closedWs := false, detachedListeners := false }) ∧
    (sanitizeNumber number ∈ st.activeSockets →
      (disconnectRoute st number false).resp = HttpResp.ok ∧
      (disconnectRoute st number false).closedWs = true ∧
      (disconnectRoute st number false).detachedListeners = true ∧
      sanitizeNumber number ∉ (disconnectRoute st number false).state.activeSockets ∧
      alookup (disconnectRoute st number false).state.socketCreationTime
        (sanitizeNumber number) = none ∧
      alookup (disconnectRoute st number false).state.mongoSessions
        (sanitizeNumber number) = none ∧
      sanitizeNumber number ∉ (disconnectRoute st number false).state.mongoNumbers ∧
      ∀ thr, (disconnectRoute (disconnectRoute st number false).state number thr).resp
        = HttpResp.notFound) := by
  constructor
  · intro hA thr
    simp [disconnectRoute, hA]
  · intro hA
    refine ⟨?_, ?_, ?_, ?_, ?_, ?_, ?_, ?_⟩ <;>
      simp [disconnectRoute, hA]

/-- Witness for C7: disconnecting registered tenant `123`, then once more. -/
theorem c7_disconnect_behavior_witness :
    (disconnectRoute st123 "123" false).resp = HttpResp.ok ∧
    alookup (disconnectRoute st123 "123" false).state.mongoSessions
      (sanitizeNumber "123") = none ∧
    (disconnectRoute (disconnectRoute st123 "123" false).state "123" false).resp
      = HttpResp.notFound := by
  have h := (c7_disconnect_behavior st123 "123").2 (by decide)
  exact ⟨h.1, h.2.2.2.2.2.1, h.2.2.2.2.2.2.2 false⟩

/-- C3 (counterexample): with `WORK_TYPE` set to `private` and a non-owner
sender, a message `.ping` matching the registered command `ping` invokes
*no* handler at all: the `if (config.WORK_TYPE === 'private' && !isOwner)
return;` of src/inconnu.js line 662 aborts the whole `messages.upsert`
callback, so neither the matched command handler (claimed to fire exactly
once) nor the independent `on body` passive trigger (claimed to fire
regardless) runs. -/
theorem c3_private_mode_blocks_dispatch :
    (dispatchMessage privCfg [pingCmd, bodyCmd] evPing).commandInvoked = none ∧
    (dispatchMessage privCfg [pingCmd, bodyCmd] evPing).passiveInvoked = [] ∧
    (dispatchMessage privCfg [pingCmd, bodyCmd] evPing).privateModeReturn = true := by
  decide

/-- C3 (amended): provided the dispatch is not aborted by the private
work-type guard (work type not `private`, or the sender is the owner), a
message whose text equals the configured command marker followed by a
registered command's pattern (or alias — `findCommand` resolves both)
invokes exactly that command's handler, exactly once on the command path
(`commandInvoked` holds at most one handler); and independently every
registered command with a matching non-command trigger is also invoked,
regardless of the command match. -/
theorem c3_dispatch_exact_and_independent (cfg : DispatchConfig) (cmds : List Command)
    (ev : MsgEvent) (c : Command) (p : String)
    (hmode : (cfg.workType == "private" && !ev.senderIsOwner) = false)
    (hbody : ev.body = cfg.pfx ++ p)
    (htok : plainToken p = true)
    (hfind : findCommand cmds p = some c) :
    (dispatchMessage cfg cmds ev).commandInvoked = some c.commandId ∧
    ∀ b ∈ cmds, passiveTrigger ev b = true →
      b.commandId ∈ (dispatchMessage cfg cmds ev).passiveInvoked := by
  have hres : resolvedCommand cfg cmds ev = some c := by
    unfold resolvedCommand
    rw [hbody, cmdNameOf_append cfg.pfx p htok]
    exact hfind
  have hd : dispatchMessage cfg cmds ev =
      { commandInvoked := some c.commandId
        commandLoggedError := c.handlerThrows
        reactionSent := c.reactEmoji.isSome
        privateModeReturn := false
        passiveInvoked := (cmds.filter (passiveTrigger ev)).map (fun b => b.commandId)
        escapedRejections :=
          ((cmds.filter (passiveTrigger ev)).filter (fun b => b.handlerThrows)).map
            (fun b => b.commandId) } := by
    unfold dispatchMessage
    rw [hres, hmode]
    simp
  rw [hd]
  refine ⟨rfl, ?_⟩
  intro b hb htrig
  exact List.mem_map.mpr ⟨b, List.mem_filter.mpr ⟨hb, htrig⟩, rfl⟩

/-- Witness for C3 (amended): `.ping` dispatched under the default public
configuration against the `ping` command plus an `on body` passive
command — the command handler (id 0) fires and the passive handler (id 1)
fires as well. -/
theorem c3_dispatch_exact_and_independent_witness :
    (dispatchMessage pubCfg [pingCmd, bodyCmd] evPing).commandInvoked = some 0 ∧
    1 ∈ (dispatchMessage pubCfg [pingCmd, bodyCmd] evPing).passiveInvoked := by
  have h := c3_dispatch_exact_and_independent pubCfg [pingCmd, bodyCmd] evPing pingCmd "ping"
    (by decide) (by decide) (by decide) (by decide)
  exact ⟨h.1, h.2 bodyCmd (by decide) (by decide)⟩

/-- C8 (counterexample): a passive `on body` handler that throws is *not*
caught and logged by the dispatch pipeline: the `events.commands.map`
iteration of src/inconnu.js lines 685-692 runs each handler inside an
`async` callback whose promise is never awaited, so the throw rejects that
promise and escapes the `try/catch` of lines 493/694 — the pipeline logs
nothing for it (`commandLoggedError` stays false, and no catch in the
pipeline observes it). -/
theorem c8_passive_throw_not_logged :
    (dispatchMessage pubCfg [throwingBodyCmd] evHello).passiveInvoked = [2] ∧
    (dispatchMessage pubCfg [throwingBodyCmd] evHello).escapedRejections = [2] ∧
    (dispatchMessage pubCfg [throwingBodyCmd] evHello).commandLoggedError = false := by
  decide

/-- C8 (amended): provided the dispatch is not aborted by the private
work-type guard — a command handler's synchronous throw is caught by the
`try/catch` of src/inconnu.js lines 665-674 and logged (`PLUGIN ERROR`),
and does not prevent the passive-trigger loop from running; a passive
handler's throw does not prevent the other matching passive handlers from
being invoked nor terminate the session, but it is not caught or logged by
the pipeline: it escapes as an unhandled promise rejection. -/
theorem c8_handler_isolation (cfg : DispatchConfig) (cmds : List Command) (ev : MsgEvent)
    (hmode : (cfg.workType == "private" && !ev.senderIsOwner) = false) :
    (dispatchMessage cfg cmds ev).passiveInvoked
        = (cmds.filter (passiveTrigger ev)).map (fun b => b.commandId) ∧
    (∀ c, resolvedCommand cfg cmds ev = some c → c.handlerThrows = true →
      (dispatchMessage cfg cmds ev).commandLoggedError = true) ∧
    (dispatchMessage cfg cmds ev).escapedRejections
        = ((cmds.filter (passiveTrigger ev)).filter (fun b => b.handlerThrows)).map
            (fun b => b.commandId) := by
  cases hres : resolvedCommand cfg cmds ev with
  | none =>
    have hd : dispatchMessage cfg cmds ev =
        { commandInvoked := none, commandLoggedError := false, reactionSent := false,
          privateModeReturn := false
          passiveInvoked := (cmds.filter (passiveTrigger ev)).map (fun b => b.commandId)
          escapedRejections :=
            ((cmds.filter (passiveTrigger ev)).filter (fun b => b.handlerThrows)).map
              (fun b => b.commandId) } := by
      unfold dispatchMessage
      rw [hres]
    rw [hd]
    refine ⟨rfl, ?_, rfl⟩
    intro c' hc' _
    exact Option.noConfusion hc'
  | some c =>
    have hd : dispatchMessage cfg cmds ev =
        { commandInvoked := some c.commandId
          commandLoggedError := c.handlerThrows
          reactionSent := c.reactEmoji.isSome
          privateModeReturn := false
          passiveInvoked := (cmds.filter (passiveTrigger ev)).map (fun b => b.commandId)
          escapedRejections :=
            ((cmds.filter (passiveTrigger ev)).filter (fun b => b.handlerThrows)).map
              (fun b => b.commandId) } := by
      unfold dispatchMessage
      rw [hres, hmode]
      simp
    rw [hd]
    refine ⟨rfl, ?_, rfl⟩
    intro c' hc' hthrows
    rw [Option.some_inj] at hc'
    rw [hc']
    exact hthrows

/-- Witness for C8 (amended): the throwing passive handler (id 2) and the
well-behaved one (id 1) both fire on a plain message; only the throw of
id 2 escapes. -/
theorem c8_handler_isolation_witness :
    (dispatchMessage pubCfg [throwingBodyCmd, bodyCmd] evHello).passiveInvoked = [2, 1] ∧
    (dispatchMessage pubCfg [throwingBodyCmd, bodyCmd] evHello).escapedRejections = [2] := by
  have h := c8_handler_isolation pubCfg [throwingBodyCmd, bodyCmd] evHello (by decide)
  refine ⟨?_, ?_⟩
  · rw [h.1]
    decide
  · rw [h.2.2]
    decide

end Inconnu
